import Mathlib

/-!
Shallow embedding of `src/scgv/qtviews/main_window.py` (SCGV Qt main window):
the `Worker`/`WorkerSignals` background-task wrapper, the `OpenButtons`
load path, `MainWindow.set_model` and `ActionButtons.on_selected_tracks_change`.

Python exceptions are modelled by `PyExc` (type name, value, and the string
`traceback.format_exc()` would render, kept abstract as a field).  A
computation that may raise is an `Except PyExc _`.  Signal emissions and
widget mutations are recorded as explicit traces so that counting and
ordering claims become statements about lists.
-/

/-- A raised Python exception: `sys.exc_info()[:2]` gives `exctype` and
`value`; `trace` stands for the string `traceback.format_exc()` returns
for it (the external formatting routine is kept abstract as data). -/
structure PyExc where
  exctype : String
  value : String
  trace : String
deriving Repr, DecidableEq

/-- Events a wrapped callable may itself fire through the `status` and
`progress` signal handles `Worker.run` passes to it (the only signals the
callable receives). -/
inductive FnEvent where
  | status (s : String)
  | progress (n : Int)
deriving Repr, DecidableEq

/-- A signal emission of `WorkerSignals`, carrying its payload.
`error` carries the tuple `(exctype, value, traceback.format_exc())`. -/
inductive WorkerEvent (α : Type) where
  | finished
  | progress (n : Int)
  | error (exctype value trace : String)
  | result (v : α)
  | status (s : String)
deriving Repr, DecidableEq

/-- Status/progress emissions of the callable, seen on the worker's signals. -/
def FnEvent.toWorkerEvent {α : Type} : FnEvent → WorkerEvent α
  | .status s => .status s
  | .progress n => .progress n

/-- `WorkerEvent` predicate: is this a `result` emission? -/
def WorkerEvent.isResult {α : Type} : WorkerEvent α → Bool
  | .result _ => true
  | _ => false

/-- `WorkerEvent` predicate: is this an `error` emission? -/
def WorkerEvent.isErr {α : Type} : WorkerEvent α → Bool
  | .error _ _ _ => true
  | _ => false

/-- `WorkerEvent` predicate: is this a `finished` emission? -/
def WorkerEvent.isFinished {α : Type} : WorkerEvent α → Bool
  | .finished => true
  | _ => false

/-- The payloads of the `result` emissions of a trace, in order. -/
def resultPayloads {α : Type} : List (WorkerEvent α) → List α
  | [] => []
  | .result v :: es => v :: resultPayloads es
  | _ :: es => resultPayloads es

/-- The wrapped callable of a `Worker`, as its observable behaviour: the
status/progress events it fires through the handles it was given, and
either its return value or the exception it raises. -/
structure WorkerFn (α : Type) where
  emitted : List FnEvent
  outcome : Except PyExc α

namespace Worker

/-- `Worker.run` (main_window.py lines 42-64): call the wrapped function;
on an exception print the traceback (`traceback.print_exc()`) and emit
`error` with `(exctype, value, traceback.format_exc())`, otherwise emit
`result` with the return value; in all cases finally emit `finished`.
Returns the emissions on the worker's signals (in order) and the lines
printed to the trace log. -/
def run {α : Type} (fn : WorkerFn α) : List (WorkerEvent α) × List String :=
  match fn.outcome with
  | .ok r =>
      (fn.emitted.map FnEvent.toWorkerEvent ++ [.result r, .finished], [])
  | .error e =>
      (fn.emitted.map FnEvent.toWorkerEvent
        ++ [.error e.exctype e.value e.trace, .finished], [e.trace])

end Worker

/-- A primitive UI/state operation performed on the main window during a
load: enabling/disabling the two open actions, handing a model to the
central widget (`self._main.set_model`), handing it to `ActionButtons`
(`self.action_buttons.set_model`), repainting (`window.update()`), or a
console print. -/
inductive LoadStep (M : Type) where
  | setArchiveEnabled (b : Bool)
  | setDirEnabled (b : Bool)
  | setMainModel (m : M)
  | setActionModel (m : M)
  | windowUpdate
  | printLine (s : String)
deriving Repr, DecidableEq

/-- Does this step enable (re-enable) one of the two open actions? -/
def LoadStep.enablesButton {M : Type} : LoadStep M → Bool
  | .setArchiveEnabled b => b
  | .setDirEnabled b => b
  | _ => false

/-- Does this step write one of the model references (central widget's or
`ActionButtons`')? -/
def LoadStep.isModelWrite {M : Type} : LoadStep M → Bool
  | .setMainModel _ => true
  | .setActionModel _ => true
  | _ => false

/-- The mutable UI state the load path touches: the enabled flags of the
two open actions, the central widget's model and `ActionButtons.model`. -/
structure UIState (M : Type) where
  openDirEnabled : Bool
  openArchiveEnabled : Bool
  mainModel : Option M
  actionModel : Option M
deriving Repr, DecidableEq

/-- Apply one primitive step to the UI state (`windowUpdate` and prints
touch no modelled state). -/
def applyStep {M : Type} (s : UIState M) : LoadStep M → UIState M
  | .setArchiveEnabled b => { s with openArchiveEnabled := b }
  | .setDirEnabled b => { s with openDirEnabled := b }
  | .setMainModel m => { s with mainModel := some m }
  | .setActionModel m => { s with actionModel := some m }
  | .windowUpdate => s
  | .printLine _ => s

/-- Apply a trace of steps left to right. -/
def applySteps {M : Type} (s : UIState M) (steps : List (LoadStep M)) : UIState M :=
  steps.foldl applyStep s

namespace MainWindow

/-- `MainWindow.set_model` (lines 233-237): if the received object is
`None` return immediately; otherwise hand the model to the central widget
and to `ActionButtons`, as a step trace. -/
def set_model {M : Type} : Option M → List (LoadStep M)
  | none => []
  | some m => [.setMainModel m, .setActionModel m]

end MainWindow

namespace OpenButtons

/-- `OpenButtons._load_error` (lines 130-132): re-enable the archive
action, then the directory action. -/
def load_error {M : Type} : List (LoadStep M) :=
  [.setArchiveEnabled true, .setDirEnabled true]

/-- `OpenButtons._load_complete` (lines 127-128): repaint the window. -/
def load_complete {M : Type} : List (LoadStep M) :=
  [.windowUpdate]

/-- `OpenButtons._build_model` (lines 134-141): construct the data model
from the filename (`DataModel(filename); model.make()`, modelled by the
external `build` function); on an exception call `_load_error()` directly
and return `None`.  Never raises.  Returns the value handed back to the
worker and the steps performed inside the worker. -/
def build_model {M : Type} (build : String → Except PyExc M) (filename : String) :
    Option M × List (LoadStep M) :=
  match build filename with
  | .ok m => (some m, [])
  | .error _ => (none, load_error)

/-- The slot wiring of `load_model` (lines 122-124): the worker's `result`
signal is connected to `MainWindow.set_model`, `error` to `_load_error`,
`finished` to `_load_complete`; `status` and `progress` are not connected. -/
def dispatch {M : Type} : WorkerEvent (Option M) → List (LoadStep M)
  | .result v => MainWindow.set_model v
  | .error _ _ _ => load_error
  | .finished => load_complete
  | .status _ => []
  | .progress _ => []

/-- The observable behaviour of one load (or one button-click handler):
the UI steps performed in order, the emissions on the worker's signals,
the lines the worker printed to the trace log, and how many workers were
handed to the thread pool. -/
structure LoadRun (M : Type) where
  steps : List (LoadStep M)
  events : List (WorkerEvent (Option M))
  workerPrinted : List String
  workersStarted : Nat
deriving Repr

/-- `OpenButtons.load_model` (lines 116-125): disable the archive action,
then the directory action; start one worker running `_build_model` on the
filename; the worker's emissions are dispatched to the connected slots in
emission order.  Since `_build_model` catches every exception itself, the
callable handed to `Worker.run` never raises and fires no status/progress
events. -/
def load_model {M : Type} (build : String → Except PyExc M) (filename : String) :
    LoadRun M :=
  let built := build_model build filename
  let out := Worker.run { emitted := [], outcome := Except.ok built.1 }
  { steps := [.setArchiveEnabled false, .setDirEnabled false]
      ++ built.2 ++ out.1.flatMap dispatch
    events := out.1
    workerPrinted := out.2
    workersStarted := 1 }

/-- `OpenButtons.on_open_directory_click` (lines 98-104): if the directory
dialog returns `None` or the empty string, print and return; otherwise
load the model from the chosen directory. -/
def on_open_directory_click {M : Type} (build : String → Except PyExc M)
    (dialogResult : Option String) : LoadRun M :=
  match dialogResult with
  | none =>
      { steps := [.printLine "open directory canceled..."]
        events := [], workerPrinted := [], workersStarted := 0 }
  | some dirname =>
      if dirname = "" then
        { steps := [.printLine "open directory canceled..."]
          events := [], workerPrinted := [], workersStarted := 0 }
      else load_model build dirname

/-- `OpenButtons.on_open_archive_click` (lines 106-114): if the file
dialog returns `None` or the empty string, print and return; otherwise
load the model from the chosen zip file. -/
def on_open_archive_click {M : Type} (build : String → Except PyExc M)
    (dialogResult : Option String) : LoadRun M :=
  match dialogResult with
  | none =>
      { steps := [.printLine "open archive canceled..."]
        events := [], workerPrinted := [], workersStarted := 0 }
  | some filename =>
      if filename = "" then
        { steps := [.printLine "open archive canceled..."]
          events := [], workerPrinted := [], workersStarted := 0 }
      else load_model build filename

end OpenButtons

/-- A primitive operation performed by
`ActionButtons.on_selected_tracks_change`: the console print, writing the
model's `selected_tracks` field, calling `model.update_selected_tracks()`,
or `window.update()`. -/
inductive TrackStep (τ : Type) where
  | printLine (selected : τ)
  | setSelectedTracks (t : τ)
  | updateSelectedTracks
  | windowUpdate
deriving Repr, DecidableEq

/-- The state `on_selected_tracks_change` can touch: the model's
`selected_tracks` field, plus counters for `update_selected_tracks` and
`window.update()` invocations. -/
structure TrackState (τ : Type) where
  selected_tracks : τ
  update_calls : Nat
  window_updates : Nat
deriving Repr, DecidableEq

/-- Apply one `TrackStep` to the tracks state. -/
def applyTrackStep {τ : Type} (s : TrackState τ) : TrackStep τ → TrackState τ
  | .printLine _ => s
  | .setSelectedTracks t => { s with selected_tracks := t }
  | .updateSelectedTracks => { s with update_calls := s.update_calls + 1 }
  | .windowUpdate => { s with window_updates := s.window_updates + 1 }

/-- Apply a trace of `TrackStep`s left to right. -/
def applyTrackSteps {τ : Type} (s : TrackState τ) (steps : List (TrackStep τ)) :
    TrackState τ :=
  steps.foldl applyTrackStep s

namespace ActionButtons

/-- `ActionButtons.on_selected_tracks_change` (lines 183-190): print the
received tracks; if they equal the model's current `selected_tracks`,
return; otherwise store them, call `model.update_selected_tracks()` and
repaint the window. -/
def on_selected_tracks_change {τ : Type} [DecidableEq τ]
    (s : TrackState τ) (selected : τ) : List (TrackStep τ) :=
  TrackStep.printLine selected ::
    (if selected = s.selected_tracks then []
     else [.setSelectedTracks selected, .updateSelectedTracks, .windowUpdate])

end ActionButtons

/-! ### Helper lemmas -/

/-- Status/progress events of the callable are never `result` emissions. -/
theorem countP_fnEvents_isResult {α : Type} (pre : List FnEvent) :
    ((pre.map FnEvent.toWorkerEvent : List (WorkerEvent α)).countP
      WorkerEvent.isResult) = 0 := by
  induction pre with
  | nil => rfl
  | cons e es ih =>
      cases e <;>
        simp [List.map, List.countP_cons, FnEvent.toWorkerEvent,
          WorkerEvent.isResult, ih]

/-- Status/progress events of the callable are never `error` emissions. -/
theorem countP_fnEvents_isErr {α : Type} (pre : List FnEvent) :
    ((pre.map FnEvent.toWorkerEvent : List (WorkerEvent α)).countP
      WorkerEvent.isErr) = 0 := by
  induction pre with
  | nil => rfl
  | cons e es ih =>
      cases e <;>
        simp [List.map, List.countP_cons, FnEvent.toWorkerEvent,
          WorkerEvent.isErr, ih]

/-- Status/progress events of the callable are never `finished` emissions. -/
theorem countP_fnEvents_isFinished {α : Type} (pre : List FnEvent) :
    ((pre.map FnEvent.toWorkerEvent : List (WorkerEvent α)).countP
      WorkerEvent.isFinished) = 0 := by
  induction pre with
  | nil => rfl
  | cons e es ih =>
      cases e <;>
        simp [List.map, List.countP_cons, FnEvent.toWorkerEvent,
          WorkerEvent.isFinished, ih]

/-- `resultPayloads` distributes over append. -/
theorem resultPayloads_append {α : Type} (xs ys : List (WorkerEvent α)) :
    resultPayloads (xs ++ ys) = resultPayloads xs ++ resultPayloads ys := by
  induction xs with
  | nil => rfl
  | cons x xs ih => cases x <;> simp [resultPayloads, ih]

/-- Status/progress events of the callable carry no result payloads. -/
theorem resultPayloads_fnEvents {α : Type} (pre : List FnEvent) :
    resultPayloads (pre.map FnEvent.toWorkerEvent : List (WorkerEvent α)) = [] := by
  induction pre with
  | nil => rfl
  | cons e es ih =>
      cases e <;> simp [List.map, FnEvent.toWorkerEvent, resultPayloads, ih]

/-! ### Claim theorems -/

/-- Claim C4: for every Worker whose wrapped callable returns `r` without
raising, `Worker.run` emits (after the callable's own status/progress
events) exactly one `result` event carrying `r`, followed by exactly one
`finished` event, and emits no `error` event. -/
theorem worker_run_success {α : Type} (pre : List FnEvent) (r : α) :
    (Worker.run ⟨pre, Except.ok r⟩).1
        = pre.map FnEvent.toWorkerEvent
            ++ [WorkerEvent.result r, WorkerEvent.finished]
  ∧ (Worker.run ⟨pre, Except.ok r⟩).1.countP WorkerEvent.isResult = 1
  ∧ resultPayloads (Worker.run ⟨pre, Except.ok r⟩).1 = [r]
  ∧ (Worker.run ⟨pre, Except.ok r⟩).1.countP WorkerEvent.isErr = 0
  ∧ (Worker.run ⟨pre, Except.ok r⟩).1.countP WorkerEvent.isFinished = 1 := by
  refine ⟨rfl, ?_, ?_, ?_, ?_⟩ <;>
    simp [Worker.run, List.countP_append, List.countP_cons,
      countP_fnEvents_isResult, countP_fnEvents_isErr, countP_fnEvents_isFinished,
      resultPayloads_append, resultPayloads_fnEvents, resultPayloads,
      WorkerEvent.isResult, WorkerEvent.isErr, WorkerEvent.isFinished] <;>
    intro a _ <;> cases a <;> simp [FnEvent.toWorkerEvent]

/-- Claim C5: for every Worker whose wrapped callable raises an exception,
`Worker.run` emits (after the callable's own status/progress events)
exactly one `error` event carrying the triple of exception type, value and
formatted traceback, no `result` event, and exactly one `finished` event,
with the `finished` event after the `error` event. -/
theorem worker_run_failure {α : Type} (pre : List FnEvent) (e : PyExc) :
    (Worker.run (α := α) ⟨pre, Except.error e⟩).1
        = pre.map FnEvent.toWorkerEvent
            ++ [WorkerEvent.error e.exctype e.value e.trace, WorkerEvent.finished]
  ∧ (Worker.run (α := α) ⟨pre, Except.error e⟩).1.countP WorkerEvent.isErr = 1
  ∧ (Worker.run (α := α) ⟨pre, Except.error e⟩).1.countP WorkerEvent.isResult = 0
  ∧ (Worker.run (α := α) ⟨pre, Except.error e⟩).1.countP WorkerEvent.isFinished = 1 := by
  refine ⟨rfl, ?_, ?_, ?_⟩ <;>
    simp [Worker.run, List.countP_append, List.countP_cons,
      countP_fnEvents_isResult, countP_fnEvents_isErr, countP_fnEvents_isFinished,
      WorkerEvent.isResult, WorkerEvent.isErr, WorkerEvent.isFinished] <;>
    intro a _ <;> cases a <;> simp [FnEvent.toWorkerEvent]

/-- A concrete model construction that always succeeds with model `7`. -/
def buildOk7 : String → Except PyExc Nat := fun _ => Except.ok 7

/-- A concrete model construction in which `DataModel(filename)`/`make()`
raises a `ValueError`. -/
def buildValueErr : String → Except PyExc Nat :=
  fun _ => Except.error ⟨"ValueError", "bad data", "tb"⟩

/-- A concrete model construction in which `DataModel(filename)`/`make()`
raises an `OSError`. -/
def buildOSErr : String → Except PyExc Nat :=
  fun _ => Except.error ⟨"OSError", "missing", "tb2"⟩

/-- Claim C1, counterexample: on a concrete successful load (model `7`
from `"data"`), the open actions are not re-enabled when the load
completes: the number of enabling steps is `0`, not `1`, and the
directory action is still disabled in the final state. -/
theorem load_model_success_not_reenabled_cex :
    (OpenButtons.load_model buildOk7 "data").steps.countP LoadStep.enablesButton ≠ 1
  ∧ (applySteps ⟨true, true, none, none⟩
        (OpenButtons.load_model buildOk7 "data").steps).openDirEnabled = false
  ∧ (applySteps ⟨true, true, none, none⟩
        (OpenButtons.load_model buildOk7 "data").steps).openArchiveEnabled = false := by
  decide

/-- Claim C1 (amended): for every load started via `load_model`, both open
actions are disabled at the start of the load; on a successful load they
are never re-enabled — the load performs no enabling step and both
actions are still disabled when the load completes.  (Re-enabling happens
only on the error path, via `_load_error`.) -/
theorem load_model_success_buttons (M : Type) (build : String → Except PyExc M)
    (f : String) (m : M) (h : build f = Except.ok m) (s : UIState M) :
    (OpenButtons.load_model build f).steps.take 2
        = [LoadStep.setArchiveEnabled false, LoadStep.setDirEnabled false]
  ∧ (OpenButtons.load_model build f).steps.countP LoadStep.enablesButton = 0
  ∧ (applySteps s (OpenButtons.load_model build f).steps).openDirEnabled = false
  ∧ (applySteps s (OpenButtons.load_model build f).steps).openArchiveEnabled = false := by
  refine ⟨?_, ?_, ?_, ?_⟩ <;>
    simp [OpenButtons.load_model, OpenButtons.build_model, h, Worker.run,
      OpenButtons.dispatch, MainWindow.set_model, OpenButtons.load_complete,
      applySteps, applyStep, LoadStep.enablesButton, List.countP_cons]

/-- Claim C1 (amended), witness at `buildOk7` and filename `"d"`. -/
theorem load_model_success_buttons_w :
    buildOk7 "d" = Except.ok 7
  ∧ ((OpenButtons.load_model buildOk7 "d").steps.take 2
        = [LoadStep.setArchiveEnabled false, LoadStep.setDirEnabled false]
    ∧ (OpenButtons.load_model buildOk7 "d").steps.countP LoadStep.enablesButton = 0
    ∧ (applySteps ⟨true, true, none, none⟩
          (OpenButtons.load_model buildOk7 "d").steps).openDirEnabled = false
    ∧ (applySteps ⟨true, true, none, none⟩
          (OpenButtons.load_model buildOk7 "d").steps).openArchiveEnabled = false) :=
  ⟨rfl, load_model_success_buttons Nat buildOk7 "d" 7 rfl ⟨true, true, none, none⟩⟩

/-- Claim C2, counterexample: on a concrete load whose model construction
raises, the worker emits no `error` event at all (it emits `result None`
then `finished`), so "exactly one error event" fails. -/
theorem load_model_failure_no_error_event_cex :
    (OpenButtons.load_model buildValueErr "bad.zip").events.countP WorkerEvent.isErr ≠ 1
  ∧ (OpenButtons.load_model buildValueErr "bad.zip").events
      = [WorkerEvent.result none, WorkerEvent.finished] := by
  decide

/-- Claim C2 (amended): for every load in which model construction raises,
no `error` event is emitted; exactly one `result` event is emitted,
carrying `None`, and exactly one `finished` event; the open buttons are
left enabled afterwards (re-enabled by the direct `_load_error()` call
inside `_build_model`). -/
theorem load_model_failure_events (M : Type) (build : String → Except PyExc M)
    (f : String) (e : PyExc) (h : build f = Except.error e) (s : UIState M) :
    (OpenButtons.load_model build f).events.countP WorkerEvent.isErr = 0
  ∧ (OpenButtons.load_model build f).events.countP WorkerEvent.isResult = 1
  ∧ resultPayloads (OpenButtons.load_model build f).events = [(none : Option M)]
  ∧ (OpenButtons.load_model build f).events.countP WorkerEvent.isFinished = 1
  ∧ (applySteps s (OpenButtons.load_model build f).steps).openDirEnabled = true
  ∧ (applySteps s (OpenButtons.load_model build f).steps).openArchiveEnabled = true := by
  refine ⟨?_, ?_, ?_, ?_, ?_, ?_⟩ <;>
    simp [OpenButtons.load_model, OpenButtons.build_model, h, Worker.run,
      OpenButtons.dispatch, OpenButtons.load_error, MainWindow.set_model,
      OpenButtons.load_complete, applySteps, applyStep, resultPayloads,
      WorkerEvent.isResult, WorkerEvent.isErr, WorkerEvent.isFinished,
      List.countP_cons]

/-- Claim C2 (amended), witness at `buildValueErr` and filename `"bad.zip"`. -/
theorem load_model_failure_events_w :
    buildValueErr "bad.zip" = Except.error ⟨"ValueError", "bad data", "tb"⟩
  ∧ ((OpenButtons.load_model buildValueErr "bad.zip").events.countP WorkerEvent.isErr = 0
    ∧ (OpenButtons.load_model buildValueErr "bad.zip").events.countP WorkerEvent.isResult = 1
    ∧ resultPayloads (OpenButtons.load_model buildValueErr "bad.zip").events
        = [(none : Option Nat)]
    ∧ (OpenButtons.load_model buildValueErr "bad.zip").events.countP WorkerEvent.isFinished = 1
    ∧ (applySteps ⟨false, false, none, none⟩
          (OpenButtons.load_model buildValueErr "bad.zip").steps).openDirEnabled = true
    ∧ (applySteps ⟨false, false, none, none⟩
          (OpenButtons.load_model buildValueErr "bad.zip").steps).openArchiveEnabled = true) :=
  ⟨rfl, load_model_failure_events Nat buildValueErr "bad.zip"
      ⟨"ValueError", "bad data", "tb"⟩ rfl ⟨false, false, none, none⟩⟩

/-- Claim C3, counterexample: on a concrete load whose model construction
raises, nothing is printed to the worker's trace log and no `error` event
is emitted — the exception never reaches the `Worker.run` boundary. -/
theorem worker_boundary_cex :
    (OpenButtons.load_model buildOSErr "missing-dir").workerPrinted = []
  ∧ (OpenButtons.load_model buildOSErr "missing-dir").events.countP
        WorkerEvent.isErr = 0 := by
  decide

/-- Claim C3 (amended): every exception raised during model construction
is caught inside `_build_model` itself and never reaches the worker
boundary: `_build_model` returns `None` after performing exactly the
`_load_error` re-enabling steps, `Worker.run` prints nothing to the trace
log and emits no `error` event, and the open buttons are re-enabled. -/
theorem build_model_catches (M : Type) (build : String → Except PyExc M)
    (f : String) (e : PyExc) (h : build f = Except.error e) (s : UIState M) :
    OpenButtons.build_model build f = (none, OpenButtons.load_error)
  ∧ (OpenButtons.load_model build f).workerPrinted = []
  ∧ (OpenButtons.load_model build f).events.countP WorkerEvent.isErr = 0
  ∧ (applySteps s (OpenButtons.load_model build f).steps).openDirEnabled = true
  ∧ (applySteps s (OpenButtons.load_model build f).steps).openArchiveEnabled = true := by
  refine ⟨?_, ?_, ?_, ?_, ?_⟩ <;>
    simp [OpenButtons.load_model, OpenButtons.build_model, h, Worker.run,
      OpenButtons.dispatch, OpenButtons.load_error, MainWindow.set_model,
      OpenButtons.load_complete, applySteps, applyStep,
      WorkerEvent.isErr, List.countP_cons]

/-- Claim C3 (amended), witness at `buildOSErr` and filename `"missing-dir"`. -/
theorem build_model_catches_w :
    buildOSErr "missing-dir" = Except.error ⟨"OSError", "missing", "tb2"⟩
  ∧ (OpenButtons.build_model buildOSErr "missing-dir"
        = (none, OpenButtons.load_error)
    ∧ (OpenButtons.load_model buildOSErr "missing-dir").workerPrinted = []
    ∧ (OpenButtons.load_model buildOSErr "missing-dir").events.countP
          WorkerEvent.isErr = 0
    ∧ (applySteps ⟨false, false, none, none⟩
          (OpenButtons.load_model buildOSErr "missing-dir").steps).openDirEnabled = true
    ∧ (applySteps ⟨false, false, none, none⟩
          (OpenButtons.load_model buildOSErr "missing-dir").steps).openArchiveEnabled
        = true) :=
  ⟨rfl, build_model_catches Nat buildOSErr "missing-dir"
      ⟨"OSError", "missing", "tb2"⟩ rfl ⟨false, false, none, none⟩⟩

/-- Claim C6: for every open-directory or open-archive click in which the
file dialog returns `None` or the empty string, the handler returns
without starting a worker and without changing any button or model state. -/
theorem open_click_cancel_noop (M : Type) (build : String → Except PyExc M)
    (s : UIState M) :
    ((OpenButtons.on_open_directory_click build none).workersStarted = 0
      ∧ applySteps s (OpenButtons.on_open_directory_click build none).steps = s)
  ∧ ((OpenButtons.on_open_directory_click build (some "")).workersStarted = 0
      ∧ applySteps s (OpenButtons.on_open_directory_click build (some "")).steps = s)
  ∧ ((OpenButtons.on_open_archive_click build none).workersStarted = 0
      ∧ applySteps s (OpenButtons.on_open_archive_click build none).steps = s)
  ∧ ((OpenButtons.on_open_archive_click build (some "")).workersStarted = 0
      ∧ applySteps s (OpenButtons.on_open_archive_click build (some "")).steps = s) := by
  refine ⟨⟨?_, ?_⟩, ⟨?_, ?_⟩, ⟨?_, ?_⟩, ⟨?_, ?_⟩⟩ <;>
    simp [OpenButtons.on_open_directory_click, OpenButtons.on_open_archive_click,
      applySteps, applyStep]

/-- Claim C7: on every successful load, the model reference held by the
central widget and the one held by `ActionButtons` are both replaced
wholesale with the newly constructed model; the only model-reference
writes the load path performs are exactly that wholesale replacement. -/
theorem load_model_success_sets_model (M : Type) (build : String → Except PyExc M)
    (f : String) (m : M) (h : build f = Except.ok m) (s : UIState M) :
    (applySteps s (OpenButtons.load_model build f).steps).mainModel = some m
  ∧ (applySteps s (OpenButtons.load_model build f).steps).actionModel = some m
  ∧ (OpenButtons.load_model build f).steps.filter LoadStep.isModelWrite
      = [LoadStep.setMainModel m, LoadStep.setActionModel m] := by
  refine ⟨?_, ?_, ?_⟩ <;>
    simp [OpenButtons.load_model, OpenButtons.build_model, h, Worker.run,
      OpenButtons.dispatch, MainWindow.set_model, OpenButtons.load_complete,
      applySteps, applyStep, LoadStep.isModelWrite, List.filter]

/-- Claim C7, witness at `buildOk7` and filename `"dir"`. -/
theorem load_model_success_sets_model_w :
    buildOk7 "dir" = Except.ok 7
  ∧ ((applySteps ⟨true, true, some 1, some 1⟩
          (OpenButtons.load_model buildOk7 "dir").steps).mainModel = some 7
    ∧ (applySteps ⟨true, true, some 1, some 1⟩
          (OpenButtons.load_model buildOk7 "dir").steps).actionModel = some 7
    ∧ (OpenButtons.load_model buildOk7 "dir").steps.filter LoadStep.isModelWrite
        = [LoadStep.setMainModel 7, LoadStep.setActionModel 7]) :=
  ⟨rfl, load_model_success_sets_model Nat buildOk7 "dir" 7 rfl ⟨true, true, some 1, some 1⟩⟩

/-- Claim C8: for every load in which `_build_model` fails (so the
`result` event carries `None`), `MainWindow.set_model` returns
immediately: the load path performs no model-reference write, and the
previously loaded model of the central widget and of `ActionButtons` are
both unchanged. -/
theorem set_model_none_noop (M : Type) (build : String → Except PyExc M)
    (f : String) (e : PyExc) (h : build f = Except.error e) (s : UIState M) :
    MainWindow.set_model (M := M) none = []
  ∧ (applySteps s (OpenButtons.load_model build f).steps).mainModel = s.mainModel
  ∧ (applySteps s (OpenButtons.load_model build f).steps).actionModel = s.actionModel
  ∧ (OpenButtons.load_model build f).steps.filter LoadStep.isModelWrite = [] := by
  refine ⟨rfl, ?_, ?_, ?_⟩ <;>
    simp [OpenButtons.load_model, OpenButtons.build_model, h, Worker.run,
      OpenButtons.dispatch, OpenButtons.load_error, MainWindow.set_model,
      OpenButtons.load_complete, applySteps, applyStep, LoadStep.isModelWrite,
      List.filter]

/-- Claim C8, witness: a failed load over an existing model `5` leaves
both model references at `5`. -/
theorem set_model_none_noop_w :
    buildValueErr "x.zip" = Except.error ⟨"ValueError", "bad data", "tb"⟩
  ∧ (MainWindow.set_model (M := Nat) none = []
    ∧ (applySteps ⟨true, true, some 5, some 5⟩
          (OpenButtons.load_model buildValueErr "x.zip").steps).mainModel
        = (⟨true, true, some 5, some 5⟩ : UIState Nat).mainModel
    ∧ (applySteps ⟨true, true, some 5, some 5⟩
          (OpenButtons.load_model buildValueErr "x.zip").steps).actionModel
        = (⟨true, true, some 5, some 5⟩ : UIState Nat).actionModel
    ∧ (OpenButtons.load_model buildValueErr "x.zip").steps.filter
          LoadStep.isModelWrite = []) :=
  ⟨rfl, set_model_none_noop Nat buildValueErr "x.zip"
      ⟨"ValueError", "bad data", "tb"⟩ rfl ⟨true, true, some 5, some 5⟩⟩

/-- Claim C9: calling `on_selected_tracks_change` with tracks equal to the
model's current `selected_tracks` only prints: the handler performs no
other step, the model's `selected_tracks` is unchanged,
`update_selected_tracks` is not invoked and the window is not updated. -/
theorem on_selected_tracks_change_same_noop (τ : Type) [DecidableEq τ]
    (s : TrackState τ) :
    ActionButtons.on_selected_tracks_change s s.selected_tracks
        = [TrackStep.printLine s.selected_tracks]
  ∧ applyTrackSteps s (ActionButtons.on_selected_tracks_change s s.selected_tracks)
        = s := by
  constructor <;>
    simp [ActionButtons.on_selected_tracks_change, applyTrackSteps, applyTrackStep]
